import Mathlib

/-!
Verification of the ProfileService microservice (src/app/main.py).

The development embeds the error classifier `validation_checking`, the
credential verifier `verify_credentials`, and the six HTTP endpoint
handlers as pure Lean functions.  Stateful aspects (database connection,
cursor, stored-procedure execution) are made explicit: each handler run
is parameterised by the outcome of the external calls and produces both
its HTTP response and a trace of resource events, mirroring the Python
try/except/finally control flow path by path.
-/

namespace ProfileService

/-- Python substring membership: the proposition modelling `sub in msg`
for Python strings, as list-of-characters infix containment. -/
def pyIn (sub msg : String) : Prop := sub.toList <:+: msg.toList

instance (sub msg : String) : Decidable (pyIn sub msg) :=
  inferInstanceAs (Decidable (sub.toList <:+: msg.toList))

/-- Python `str.lower()`, character-wise lowering.  All backend error
texts matched by the service are ASCII, where `Char.toLower` agrees with
Python lowercasing. -/
def pyLower (s : String) : String := ⟨s.toList.map Char.toLower⟩

/-- An HTTPException as raised by the service: status code and detail. -/
structure HTTPError where
  status : Nat
  detail : String
deriving DecidableEq, Repr

/-- Embedding of `validation_checking` (main.py lines 191-228): the
ordered substring classifier.  In the source every branch raises an
HTTPException; here the raised (status, detail) pair is returned. -/
def validation_checking (msg : String) : HTTPError :=
  if pyIn ("user not found") msg then ⟨404, "User not found"⟩
  else if pyIn ("new activity not found") msg then ⟨404, "New Activity not found"⟩
  else if pyIn ("old activity not found") msg then ⟨404, "Old Activity not found for this user"⟩
  else if pyIn ("activity not found") msg then ⟨404, "Activity not found"⟩
  else if pyIn ("activity already exists for this user") msg then
    ⟨409, "Activity already exists for this user."⟩
  else if pyIn ("old activity not found for this user") msg then
    ⟨409, "Old activity not found for this user."⟩
  else if pyIn ("email already exists") msg then ⟨409, "Email already exists."⟩
  else if pyIn ("username already exists") msg then ⟨409, "Username already exists"⟩
  else if pyIn ("date_of_birth") msg then
    ⟨409, "Invalid date of birth, must be at least 13 years old."⟩
  else if pyIn ("phone_number") msg then
    ⟨409, "Invalid phone number format, the number must start with +."⟩
  else ⟨500, "Internal server error"⟩

/-- The classifier as applied by every mutating endpoint: the raw
backend text is lowered (`msg = str(e).lower()`) and then passed to
`validation_checking`. -/
def classify (raw : String) : HTTPError := validation_checking (pyLower raw)

/-- The eleven fixed (status, detail) pairs of the classifier table. -/
def classifier_table : List HTTPError :=
  [⟨404, "User not found"⟩,
   ⟨404, "New Activity not found"⟩,
   ⟨404, "Old Activity not found for this user"⟩,
   ⟨404, "Activity not found"⟩,
   ⟨409, "Activity already exists for this user."⟩,
   ⟨409, "Old activity not found for this user."⟩,
   ⟨409, "Email already exists."⟩,
   ⟨409, "Username already exists"⟩,
   ⟨409, "Invalid date of birth, must be at least 13 years old."⟩,
   ⟨409, "Invalid phone number format, the number must start with +."⟩,
   ⟨500, "Internal server error"⟩]

/-- A message matches some classifying substring of `validation_checking`. -/
abbrev matchesAnyRule (msg : String) : Prop :=
  pyIn ("user not found") msg ∨
  pyIn ("new activity not found") msg ∨
  pyIn ("old activity not found") msg ∨
  pyIn ("activity not found") msg ∨
  pyIn ("activity already exists for this user") msg ∨
  pyIn ("old activity not found for this user") msg ∨
  pyIn ("email already exists") msg ∨
  pyIn ("username already exists") msg ∨
  pyIn ("date_of_birth") msg ∨
  pyIn ("phone_number") msg

/-- A parsed JSON value, the possible results of `response.json()`. -/
inductive Json where
  | str (s : String)
  | num (n : Int)
  | bool (b : Bool)
  | null
  | arr (elems : List Json)

/-- The authenticated principal returned on successful verification. -/
structure Principal where
  email : String
  authenticated : Bool
deriving DecidableEq, Repr

/-- Outcome of the outbound `requests.post` to the authentication API.
`requestException` covers transport-level failures (timeout, connection
error).  In `httpResponse`, `body = none` models a body on which
`response.json()` raises a JSON decode error; in the requests library
that error is a `RequestException`, so it is caught by the same handler
as transport failures. -/
inductive AuthResponse where
  | requestException
  | httpResponse (statusCode : Nat) (body : Option Json)

/-- Python equality test between a decoded JSON value and a string
literal, as in `result[0] == "Verified"`. -/
def jsonEqStr : Json → String → Bool
  | .str s, t => s == t
  | _, _ => false

/-- Embedding of `verify_credentials` (main.py lines 99-148), as a
function of the outcome of the authentication call. -/
def verify_credentials (email password : String) :
    AuthResponse → Except HTTPError Principal
  | .requestException => .error ⟨503, "Authentication service unavailable"⟩
  | .httpResponse statusCode body =>
    if statusCode = 200 then
      match body with
      | none => .error ⟨503, "Authentication service unavailable"⟩
      | some result =>
        match result with
        | .arr (x0 :: x1 :: _) =>
          if jsonEqStr x0 ("Verified") && jsonEqStr x1 ("True") then
            .ok ⟨email, true⟩
          else
            .error ⟨401, "Invalid credentials"⟩
        | _ => .error ⟨401, "Invalid credentials"⟩
    else
      .error ⟨401, "Authentication failed"⟩

/-- HTTP Basic credentials submitted with a request. -/
structure Credentials where
  username : String
  password : String

/-- Resource events performed by a handler against the database layer. -/
inductive Ev where
  | connect
  | exec (proc : String)
  | rollback
  | fetchone
  | cursorClose
  | connClose
deriving DecidableEq, Repr

/-- The observable result of a handler run. -/
inductive Response where
  | success (body : List (String × Json))
  | httpError (e : HTTPError)
  | typeError

/-- A handler run: its HTTP-level response and its resource trace. -/
structure RunResult where
  response : Response
  trace : List Ev

/-- Outcome of `cursor.execute` for the write endpoints: either the
stored procedure succeeds, or pyodbc raises an error with raw text. -/
inductive ExecResult where
  | ok
  | dbError (raw : String)

/-- Outcome of the read endpoint's backend interaction: a successful
execute yielding column names and an optional fetched row, or a pyodbc
error with raw text. -/
inductive ReadExec where
  | ok (columns : List String) (row : Option (List Json))
  | dbError (raw : String)

/-- Body of `create_user` (main.py lines 244-269) after a connection was
acquired: execute, return success message; on pyodbc error roll back and
classify; the finally block closes cursor and connection on both paths. -/
def create_user_body (db : ExecResult) : RunResult :=
  match db with
  | .ok =>
      ⟨.success [("message", .str ("User created successfully"))],
        [.connect, .exec ("CW2.Create_User"), .cursorClose, .connClose]⟩
  | .dbError raw =>
      ⟨.httpError (classify raw),
        [.connect, .exec ("CW2.Create_User"), .rollback, .cursorClose, .connClose]⟩

/-- Body of `read_user` (main.py lines 284-313).  On a successful
execute, `fetchone` may return no row; `dict(zip(columns, row))` then
raises an uncaught TypeError (zip over `None`), which the
`except pyodbc.Error` clause does not catch; the finally block still
closes cursor and connection. -/
def read_user_body (db : ReadExec) : RunResult :=
  match db with
  | .ok columns row =>
      match row with
      | some r =>
          ⟨.success (columns.zip r),
            [.connect, .exec ("CW2.Read_User"), .fetchone, .cursorClose, .connClose]⟩
      | none =>
          ⟨.typeError,
            [.connect, .exec ("CW2.Read_User"), .fetchone, .cursorClose, .connClose]⟩
  | .dbError raw =>
      ⟨.httpError
          (if pyIn ("user not found") (pyLower raw) then ⟨404, "User not found"⟩
           else ⟨500, "Failed to retrieve user profile"⟩),
        [.connect, .exec ("CW2.Read_User"), .cursorClose, .connClose]⟩

/-- Body of `update_user` (main.py lines 323-351). -/
def update_user_body (db : ExecResult) : RunResult :=
  match db with
  | .ok =>
      ⟨.success [("message", .str ("User updated successfully"))],
        [.connect, .exec ("CW2.Update_User"), .cursorClose, .connClose]⟩
  | .dbError raw =>
      ⟨.httpError (classify raw),
        [.connect, .exec ("CW2.Update_User"), .cursorClose, .connClose]⟩

/-- Body of `create_user_preferences` (main.py lines 372-393). -/
def create_user_preferences_body (db : ExecResult) : RunResult :=
  match db with
  | .ok =>
      ⟨.success [("message", .str ("User Preferences created successfully"))],
        [.connect, .exec ("CW2.Add_User_Activity"), .cursorClose, .connClose]⟩
  | .dbError raw =>
      ⟨.httpError (classify raw),
        [.connect, .exec ("CW2.Add_User_Activity"), .cursorClose, .connClose]⟩

/-- Body of `update_user_preferences` (main.py lines 403-426). -/
def update_user_preferences_body (db : ExecResult) : RunResult :=
  match db with
  | .ok =>
      ⟨.success [("message", .str ("User Preferences updated successfully"))],
        [.connect, .exec ("CW2.Update_User_Activity"), .cursorClose, .connClose]⟩
  | .dbError raw =>
      ⟨.httpError (classify raw),
        [.connect, .exec ("CW2.Update_User_Activity"), .cursorClose, .connClose]⟩

/-- Body of `delete_user` (main.py lines 434-454), with the narrow
user-not-found / internal-error classification. -/
def delete_user_body (db : ExecResult) : RunResult :=
  match db with
  | .ok =>
      ⟨.success [("message", .str ("User deleted successfully"))],
        [.connect, .exec ("CW2.Delete_User"), .cursorClose, .connClose]⟩
  | .dbError raw =>
      ⟨.httpError
          (if pyIn ("user not found") (pyLower raw) then ⟨404, "User not found"⟩
           else ⟨500, "Failed to delete user profile"⟩),
        [.connect, .exec ("CW2.Delete_User"), .cursorClose, .connClose]⟩

/-- The shared endpoint skeleton: FastAPI resolves the
`Depends(verify_credentials)` dependency first; if it raises, the handler
body never runs (empty trace).  Then `get_db_connection` either yields a
connection or raises 503 "Database connection failed" before any
resource is acquired. -/
def run_endpoint (cred : Credentials) (auth : AuthResponse) (connOk : Bool)
    (body : RunResult) : RunResult :=
  match verify_credentials cred.username cred.password auth with
  | .error e => ⟨.httpError e, []⟩
  | .ok _ =>
    if connOk then body
    else ⟨.httpError ⟨503, "Database connection failed"⟩, []⟩

/-- Endpoint POST /api/profiles. -/
def create_user (cred : Credentials) (auth : AuthResponse) (connOk : Bool)
    (db : ExecResult) : RunResult :=
  run_endpoint cred auth connOk (create_user_body db)

/-- Endpoint GET /api/profiles/(user_id). -/
def read_user (cred : Credentials) (auth : AuthResponse) (connOk : Bool)
    (db : ReadExec) : RunResult :=
  run_endpoint cred auth connOk (read_user_body db)

/-- Endpoint PUT /api/profiles/(user_id). -/
def update_user (cred : Credentials) (auth : AuthResponse) (connOk : Bool)
    (db : ExecResult) : RunResult :=
  run_endpoint cred auth connOk (update_user_body db)

/-- Endpoint POST /api/profiles/(user_id)/activity. -/
def create_user_preferences (cred : Credentials) (auth : AuthResponse)
    (connOk : Bool) (db : ExecResult) : RunResult :=
  run_endpoint cred auth connOk (create_user_preferences_body db)

/-- Endpoint POST /api/profiles/(user_id), preference update. -/
def update_user_preferences (cred : Credentials) (auth : AuthResponse)
    (connOk : Bool) (db : ExecResult) : RunResult :=
  run_endpoint cred auth connOk (update_user_preferences_body db)

/-- Endpoint DELETE /api/profiles/(user_id). -/
def delete_user (cred : Credentials) (auth : AuthResponse) (connOk : Bool)
    (db : ExecResult) : RunResult :=
  run_endpoint cred auth connOk (delete_user_body db)

/-- Number of stored-procedure invocations in a trace. -/
def execCount (t : List Ev) : Nat :=
  t.countP fun ev => match ev with | .exec _ => true | _ => false

/-- The trace ends by closing the cursor and then the connection. -/
def endsClosed (t : List Ev) : Bool :=
  match t.reverse with
  | Ev.connClose :: Ev.cursorClose :: _ => true
  | _ => false

/-- A sample authentication-API outcome accepting the credentials. -/
def authOK : AuthResponse :=
  .httpResponse 200 (some (.arr [.str ("Verified"), .str ("True")]))

/-- A sample authentication-API outcome rejecting the credentials. -/
def authRejected : AuthResponse := .httpResponse 401 none

/-! Theorems. -/

/-- If `sub1` is a list prefix of `sub2` and `sub2` occurs in `msg`,
then `sub1` occurs in `msg`. -/
theorem pyIn_of_prefix {sub1 sub2 msg : String}
    (hp : sub1.toList <+: sub2.toList) (h : pyIn sub2 msg) : pyIn sub1 msg :=
  hp.isInfix.trans h

/-- Every message containing the long conflict marker also contains the
shorter not-found marker matched three branches earlier. -/
theorem pyIn_old_activity {msg : String}
    (h : pyIn ("old activity not found for this user") msg) :
    pyIn ("old activity not found") msg :=
  pyIn_of_prefix ⟨(" for this user").toList, by decide⟩ h

/-- Claim C2: for every input string, `validation_checking` never
produces the 409 response with detail "Old activity not found for this
user.": that branch is unreachable, because any string containing the
long substring also contains "old activity not found", matched by an
earlier branch that yields 404 first. -/
theorem validation_checking_conflict_unreachable (msg : String) :
    validation_checking msg ≠ ⟨409, "Old activity not found for this user."⟩ := by
  unfold validation_checking
  split_ifs with h1 h2 h3 h4 h5 h6 h7 h8 h9 h10 <;> try decide
  exact absurd (pyIn_old_activity h6) h3

/-- Claim C1: evaluating the classifier on the failing input
"old activity not found for this user" shows the code contradicts the
specified ordering: the message is classified by the earlier, shorter
"old activity not found" branch and yields 404 "Old Activity not found
for this user", never the specified 409 conflict. -/
theorem classify_old_activity_conflict_divergence :
    classify ("old activity not found for this user")
        = ⟨404, "Old Activity not found for this user"⟩ ∧
    classify ("old activity not found for this user")
        ≠ ⟨409, "Old activity not found for this user."⟩ := by
  constructor
  · decide
  · decide

/-- Claim C5: the classifier is total with a fixed output set: every
message maps to one of the eleven fixed (status, detail) pairs, and a
message matching no classifying substring maps to 500 "Internal server
error"; in particular the raw backend text is never part of the detail. -/
theorem validation_checking_total (msg : String) :
    validation_checking msg ∈ classifier_table ∧
    (¬ matchesAnyRule msg →
      validation_checking msg = ⟨500, "Internal server error"⟩) := by
  constructor
  · unfold validation_checking
    split_ifs <;> simp [classifier_table]
  · intro h
    unfold matchesAnyRule at h
    push_neg at h
    obtain ⟨n1, n2, n3, n4, n5, n6, n7, n8, n9, n10⟩ := h
    unfold validation_checking
    rw [if_neg n1, if_neg n2, if_neg n3, if_neg n4, if_neg n5, if_neg n6,
      if_neg n7, if_neg n8, if_neg n9, if_neg n10]

/-- Witness for claim C5 at a concrete unclassified message. -/
theorem validation_checking_total_witness :
    validation_checking ("network glitch 0x80") ∈ classifier_table ∧
    validation_checking ("network glitch 0x80") = ⟨500, "Internal server error"⟩ :=
  ⟨(validation_checking_total ("network glitch 0x80")).1,
   (validation_checking_total ("network glitch 0x80")).2 (by decide)⟩

/-- Claim C8: classification is case-insensitive: two raw messages that
agree after character-wise lowercasing (in particular, case variants of
one another) classify identically, since the message is lowercased
before substring matching. -/
theorem classify_case_insensitive (m m' : String)
    (h : pyLower m = pyLower m') : classify m = classify m' := by
  unfold classify
  rw [h]

/-- Witness for claim C8 at a concrete case variant. -/
theorem classify_case_insensitive_witness :
    classify ("USER Not Found") = classify ("user not found") :=
  classify_case_insensitive ("USER Not Found") ("user not found") (by decide)

/-- A JSON value comparing equal to a string literal is that string. -/
theorem jsonEqStr_eq {j : Json} {s : String} (h : jsonEqStr j s = true) :
    j = .str s := by
  cases j with
  | str t => simp [jsonEqStr] at h; rw [h]
  | num n => simp [jsonEqStr] at h
  | bool b => simp [jsonEqStr] at h
  | null => simp [jsonEqStr] at h
  | arr es => simp [jsonEqStr] at h

/-- Every error produced by the credential verifier is one of its three
fixed errors; in particular it is never a 404. -/
theorem verify_error_cases (email password : String) (resp : AuthResponse)
    (err : HTTPError)
    (h : verify_credentials email password resp = .error err) :
    err = ⟨401, "Invalid credentials"⟩ ∨ err = ⟨401, "Authentication failed"⟩ ∨
      err = ⟨503, "Authentication service unavailable"⟩ := by
  cases resp with
  | requestException =>
    injection h with h2
    right; right; exact h2.symm
  | httpResponse s b =>
    simp only [verify_credentials] at h
    split at h
    · split at h
      · injection h with h2
        right; right; exact h2.symm
      · split at h
        · split at h
          · exact absurd h (by simp)
          · injection h with h2
            left; exact h2.symm
        · injection h with h2
          left; exact h2.symm
    · injection h with h2
      right; left; exact h2.symm

/-- Claim C3 (amended): the verifier succeeds exactly when the
authentication endpoint responds HTTP 200 with a parsed JSON list of at
least two elements whose first two are "Verified" and "True"; every
other successfully parsed 200 body is treated as verification failure
(401 "Invalid credentials"); a 200 body that fails JSON parsing raises
the HTTP library's decode error, surfacing as the 503
service-unavailable error. -/
theorem verify_credentials_success_iff :
    (∀ email password statusCode body,
      (∃ p, verify_credentials email password (.httpResponse statusCode body)
          = .ok p) ↔
        (statusCode = 200 ∧
          ∃ rest, body = some (.arr (.str ("Verified") :: .str ("True") :: rest)))) ∧
    (∀ email password j,
      (∀ rest, j ≠ .arr (.str ("Verified") :: .str ("True") :: rest)) →
        verify_credentials email password (.httpResponse 200 (some j)) =
          .error ⟨401, "Invalid credentials"⟩) ∧
    (∀ email password,
      verify_credentials email password (.httpResponse 200 none) =
        .error ⟨503, "Authentication service unavailable"⟩) := by
  refine ⟨?_, ?_, fun _ _ => rfl⟩
  · intro email password statusCode body
    constructor
    · rintro ⟨p, hp⟩
      simp only [verify_credentials] at hp
      split at hp
      case isTrue hs =>
        refine ⟨hs, ?_⟩
        split at hp
        · exact absurd hp (by simp)
        case h_2 j =>
        split at hp
        case h_1 x0 x1 rest =>
          split at hp
          case isTrue hc =>
            obtain ⟨h0, h1⟩ := Bool.and_eq_true_iff.mp hc
            exact ⟨rest, by rw [jsonEqStr_eq h0, jsonEqStr_eq h1]⟩
          case isFalse => exact absurd hp (by simp)
        case h_2 => exact absurd hp (by simp)
      case isFalse => exact absurd hp (by simp)
    · rintro ⟨hs, rest, hb⟩
      subst hs
      subst hb
      exact ⟨⟨email, true⟩, by simp [verify_credentials, jsonEqStr]⟩
  · intro email password j hj
    cases j with
    | arr elems =>
      rcases elems with _ | ⟨x0, elems1⟩
      · rfl
      rcases elems1 with _ | ⟨x1, rest⟩
      · rfl
      have hc : (jsonEqStr x0 ("Verified") && jsonEqStr x1 ("True")) = false := by
        by_cases hb : (jsonEqStr x0 ("Verified") && jsonEqStr x1 ("True")) = true
        · exfalso
          obtain ⟨h0, h1⟩ := Bool.and_eq_true_iff.mp hb
          exact hj rest (by rw [jsonEqStr_eq h0, jsonEqStr_eq h1])
        · exact Bool.eq_false_iff.mpr hb
      simp [verify_credentials, hc]
    | str t => rfl
    | num n => rfl
    | bool v => rfl
    | null => rfl

/-- Counterexample to claim C3 as stated: a 200 response whose body is a
three-element list starting with "Verified", "True" is accepted by the
code (the check is `len(result) >= 2`), not treated as verification
failure. -/
theorem verify_credentials_three_element_counterexample :
    verify_credentials ("ada@plymouth.ac.uk") ("insecurePassword")
        (.httpResponse 200
          (some (.arr [.str ("Verified"), .str ("True"), .str ("Extra")]))) =
      .ok ⟨"ada@plymouth.ac.uk", true⟩ ∧
    verify_credentials ("ada@plymouth.ac.uk") ("insecurePassword")
        (.httpResponse 200
          (some (.arr [.str ("Verified"), .str ("True"), .str ("Extra")]))) ≠
      .error ⟨401, "Invalid credentials"⟩ := by
  refine ⟨rfl, ?_⟩
  intro h
  simp [verify_credentials, jsonEqStr] at h

/-- Witness for claim C3 at concrete authentication outcomes. -/
theorem verify_credentials_success_iff_witness :
    (∃ p, verify_credentials ("tim@plymouth.ac.uk") ("COMP2001!")
        (.httpResponse 200 (some (.arr [.str ("Verified"), .str ("True")]))) =
          .ok p) ∧
    verify_credentials ("tim@plymouth.ac.uk") ("COMP2001!")
        (.httpResponse 200 (some (.num 7))) =
      .error ⟨401, "Invalid credentials"⟩ ∧
    verify_credentials ("tim@plymouth.ac.uk") ("COMP2001!")
        (.httpResponse 200 none) =
      .error ⟨503, "Authentication service unavailable"⟩ :=
  ⟨(verify_credentials_success_iff.1 ("tim@plymouth.ac.uk") ("COMP2001!")
      200 (some (.arr [.str ("Verified"), .str ("True")]))).mpr ⟨rfl, [], rfl⟩,
   verify_credentials_success_iff.2.1 ("tim@plymouth.ac.uk") ("COMP2001!")
      (.num 7) (fun rest h => Json.noConfusion h),
   verify_credentials_success_iff.2.2 ("tim@plymouth.ac.uk") ("COMP2001!")⟩

/-- Claim C4: a transport-level failure of the outbound authentication
call yields the 503 service-unavailable error, never 401; any non-200
response status yields 401 "Authentication failed". -/
theorem verify_credentials_transport_and_status :
    (∀ email password,
      verify_credentials email password .requestException =
        .error ⟨503, "Authentication service unavailable"⟩) ∧
    (∀ email password statusCode body, statusCode ≠ 200 →
      verify_credentials email password (.httpResponse statusCode body) =
        .error ⟨401, "Authentication failed"⟩) := by
  refine ⟨fun _ _ => rfl, fun email password s b hs => ?_⟩
  simp only [verify_credentials]
  rw [if_neg hs]

/-- Witness for claim C4 at a timeout and at a 500 response. -/
theorem verify_credentials_transport_and_status_witness :
    verify_credentials ("grace@plymouth.ac.uk") ("ISAD123!") .requestException =
      .error ⟨503, "Authentication service unavailable"⟩ ∧
    verify_credentials ("grace@plymouth.ac.uk") ("ISAD123!")
        (.httpResponse 500 none) =
      .error ⟨401, "Authentication failed"⟩ :=
  ⟨verify_credentials_transport_and_status.1 ("grace@plymouth.ac.uk") ("ISAD123!"),
   verify_credentials_transport_and_status.2 ("grace@plymouth.ac.uk") ("ISAD123!")
     500 none (by decide)⟩

/-- The create-user body always issues one invocation and closes both
resources. -/
theorem create_user_body_closed (db : ExecResult) :
    endsClosed (create_user_body db).trace = true ∧
      execCount (create_user_body db).trace = 1 := by
  cases db <;> exact ⟨rfl, rfl⟩

/-- The read-user body always issues one invocation and closes both
resources, also on the uncaught-TypeError path. -/
theorem read_user_body_closed (db : ReadExec) :
    endsClosed (read_user_body db).trace = true ∧
      execCount (read_user_body db).trace = 1 := by
  cases db with
  | ok columns row => cases row <;> exact ⟨rfl, rfl⟩
  | dbError raw => exact ⟨rfl, rfl⟩

/-- The update-user body always issues one invocation and closes both
resources. -/
theorem update_user_body_closed (db : ExecResult) :
    endsClosed (update_user_body db).trace = true ∧
      execCount (update_user_body db).trace = 1 := by
  cases db <;> exact ⟨rfl, rfl⟩

/-- The add-activity body always issues one invocation and closes both
resources. -/
theorem create_user_preferences_body_closed (db : ExecResult) :
    endsClosed (create_user_preferences_body db).trace = true ∧
      execCount (create_user_preferences_body db).trace = 1 := by
  cases db <;> exact ⟨rfl, rfl⟩

/-- The update-preference body always issues one invocation and closes
both resources. -/
theorem update_user_preferences_body_closed (db : ExecResult) :
    endsClosed (update_user_preferences_body db).trace = true ∧
      execCount (update_user_preferences_body db).trace = 1 := by
  cases db <;> exact ⟨rfl, rfl⟩

/-- The delete-user body always issues one invocation and closes both
resources. -/
theorem delete_user_body_closed (db : ExecResult) :
    endsClosed (delete_user_body db).trace = true ∧
      execCount (delete_user_body db).trace = 1 := by
  cases db <;> exact ⟨rfl, rfl⟩

/-- Claim C7: when credential verification fails, every endpoint
terminates with the authentication error and without any backend
interaction: no connection is acquired, the trace is empty, and the
stored-procedure call count is zero. -/
theorem endpoints_auth_short_circuit (cred : Credentials) (auth : AuthResponse)
    (connOk : Bool) (e : HTTPError)
    (dbW dbU dbD dbA dbP : ExecResult) (dbR : ReadExec)
    (h : verify_credentials cred.username cred.password auth = .error e) :
    (create_user cred auth connOk dbW).trace = [] ∧
    (read_user cred auth connOk dbR).trace = [] ∧
    (update_user cred auth connOk dbU).trace = [] ∧
    (delete_user cred auth connOk dbD).trace = [] ∧
    (create_user_preferences cred auth connOk dbA).trace = [] ∧
    (update_user_preferences cred auth connOk dbP).trace = [] ∧
    execCount (create_user cred auth connOk dbW).trace = 0 ∧
    (create_user cred auth connOk dbW).response = .httpError e := by
  have hr : ∀ body : RunResult,
      run_endpoint cred auth connOk body = ⟨.httpError e, []⟩ := by
    intro body
    unfold run_endpoint
    rw [h]
  refine ⟨?_, ?_, ?_, ?_, ?_, ?_, ?_, ?_⟩ <;>
    simp [create_user, read_user, update_user, delete_user,
      create_user_preferences, update_user_preferences, hr, execCount]

/-- Witness for claim C7 with rejected credentials. -/
theorem endpoints_auth_short_circuit_witness :
    (create_user ⟨"eve", "wrong"⟩ authRejected true .ok).trace = [] ∧
    (read_user ⟨"eve", "wrong"⟩ authRejected true (.ok [] none)).trace = [] ∧
    (update_user ⟨"eve", "wrong"⟩ authRejected true .ok).trace = [] ∧
    (delete_user ⟨"eve", "wrong"⟩ authRejected true .ok).trace = [] ∧
    (create_user_preferences ⟨"eve", "wrong"⟩ authRejected true .ok).trace = [] ∧
    (update_user_preferences ⟨"eve", "wrong"⟩ authRejected true .ok).trace = [] ∧
    execCount (create_user ⟨"eve", "wrong"⟩ authRejected true .ok).trace = 0 ∧
    (create_user ⟨"eve", "wrong"⟩ authRejected true .ok).response =
      .httpError ⟨401, "Authentication failed"⟩ :=
  endpoints_auth_short_circuit ⟨"eve", "wrong"⟩ authRejected true
    ⟨401, "Authentication failed"⟩ .ok .ok .ok .ok .ok (.ok [] none) rfl

/-- Claim C9: in every execution of any endpoint in which a connection
is acquired (authentication succeeded and the connection call did not
fail), the trace ends by closing the cursor and then the connection —
on the success path, the classified-error path and the unexpected-error
path alike — and contains exactly one stored-procedure invocation. -/
theorem endpoints_resource_safety (cred : Credentials) (auth : AuthResponse)
    (p : Principal) (dbW dbU dbD dbA dbP : ExecResult) (dbR : ReadExec)
    (h : verify_credentials cred.username cred.password auth = .ok p) :
    (endsClosed (create_user cred auth true dbW).trace = true ∧
      execCount (create_user cred auth true dbW).trace = 1) ∧
    (endsClosed (read_user cred auth true dbR).trace = true ∧
      execCount (read_user cred auth true dbR).trace = 1) ∧
    (endsClosed (update_user cred auth true dbU).trace = true ∧
      execCount (update_user cred auth true dbU).trace = 1) ∧
    (endsClosed (delete_user cred auth true dbD).trace = true ∧
      execCount (delete_user cred auth true dbD).trace = 1) ∧
    (endsClosed (create_user_preferences cred auth true dbA).trace = true ∧
      execCount (create_user_preferences cred auth true dbA).trace = 1) ∧
    (endsClosed (update_user_preferences cred auth true dbP).trace = true ∧
      execCount (update_user_preferences cred auth true dbP).trace = 1) := by
  have hr : ∀ body : RunResult, run_endpoint cred auth true body = body := by
    intro body
    unfold run_endpoint
    rw [h]
    rfl
  refine ⟨?_, ?_, ?_, ?_, ?_, ?_⟩
  · unfold create_user; rw [hr]; exact create_user_body_closed dbW
  · unfold read_user; rw [hr]; exact read_user_body_closed dbR
  · unfold update_user; rw [hr]; exact update_user_body_closed dbU
  · unfold delete_user; rw [hr]; exact delete_user_body_closed dbD
  · unfold create_user_preferences; rw [hr]
    exact create_user_preferences_body_closed dbA
  · unfold update_user_preferences; rw [hr]
    exact update_user_preferences_body_closed dbP

/-- Witness for claim C9 with accepted credentials over each backend
outcome shape. -/
theorem endpoints_resource_safety_witness :
    (endsClosed (create_user ⟨"grace@plymouth.ac.uk", "ISAD123!"⟩ authOK true
        (.dbError ("email already exists"))).trace = true ∧
      execCount (create_user ⟨"grace@plymouth.ac.uk", "ISAD123!"⟩ authOK true
        (.dbError ("email already exists"))).trace = 1) ∧
    (endsClosed (read_user ⟨"grace@plymouth.ac.uk", "ISAD123!"⟩ authOK true
        (.ok [] none)).trace = true ∧
      execCount (read_user ⟨"grace@plymouth.ac.uk", "ISAD123!"⟩ authOK true
        (.ok [] none)).trace = 1) ∧
    (endsClosed (update_user ⟨"grace@plymouth.ac.uk", "ISAD123!"⟩ authOK true
        .ok).trace = true ∧
      execCount (update_user ⟨"grace@plymouth.ac.uk", "ISAD123!"⟩ authOK true
        .ok).trace = 1) ∧
    (endsClosed (delete_user ⟨"grace@plymouth.ac.uk", "ISAD123!"⟩ authOK true
        .ok).trace = true ∧
      execCount (delete_user ⟨"grace@plymouth.ac.uk", "ISAD123!"⟩ authOK true
        .ok).trace = 1) ∧
    (endsClosed (create_user_preferences ⟨"grace@plymouth.ac.uk", "ISAD123!"⟩
        authOK true .ok).trace = true ∧
      execCount (create_user_preferences ⟨"grace@plymouth.ac.uk", "ISAD123!"⟩
        authOK true .ok).trace = 1) ∧
    (endsClosed (update_user_preferences ⟨"grace@plymouth.ac.uk", "ISAD123!"⟩
        authOK true .ok).trace = true ∧
      execCount (update_user_preferences ⟨"grace@plymouth.ac.uk", "ISAD123!"⟩
        authOK true .ok).trace = 1) :=
  endpoints_resource_safety ⟨"grace@plymouth.ac.uk", "ISAD123!"⟩ authOK
    ⟨"grace@plymouth.ac.uk", true⟩ (.dbError ("email already exists"))
    .ok .ok .ok .ok (.ok [] none) rfl

/-- Claim C6: the read and delete endpoints use the narrow
classification: a backend error yields 404 "User not found" exactly when
the lowercased message contains "user not found", and otherwise a
generic 500; no 409 or other classified 404 kind is possible.  In
particular a repeated delete, where the backend reports
"user not found", yields the 404 response. -/
theorem read_delete_narrow_classification :
    (∀ raw : String,
      ((read_user_body (.dbError raw)).response =
          .httpError ⟨404, "User not found"⟩ ↔
        pyIn ("user not found") (pyLower raw)) ∧
      ((delete_user_body (.dbError raw)).response =
          .httpError ⟨404, "User not found"⟩ ↔
        pyIn ("user not found") (pyLower raw)) ∧
      ((read_user_body (.dbError raw)).response =
          .httpError ⟨404, "User not found"⟩ ∨
        (read_user_body (.dbError raw)).response =
          .httpError ⟨500, "Failed to retrieve user profile"⟩) ∧
      ((delete_user_body (.dbError raw)).response =
          .httpError ⟨404, "User not found"⟩ ∨
        (delete_user_body (.dbError raw)).response =
          .httpError ⟨500, "Failed to delete user profile"⟩)) ∧
    (delete_user_body (.dbError ("user not found"))).response =
      .httpError ⟨404, "User not found"⟩ := by
  constructor
  · intro raw
    by_cases hraw : pyIn ("user not found") (pyLower raw)
    · simp [read_user_body, delete_user_body, hraw]
    · simp [read_user_body, delete_user_body, hraw]
  · have hraw : pyIn ("user not found") (pyLower ("user not found")) := by decide
    simp [delete_user_body, hraw]

/-- Claim C10: when the backend read completes without error but returns
no row, `read_user` does not produce the 404 response: it raises an
uncaught TypeError while building the column-to-value mapping; the 404
"User not found" response arises only from a backend error whose
lowercased text contains "user not found". -/
theorem read_user_missing_row_type_error :
    (∀ (cred : Credentials) (auth : AuthResponse) (p : Principal)
        (columns : List String),
      verify_credentials cred.username cred.password auth = .ok p →
        (read_user cred auth true (.ok columns none)).response = .typeError) ∧
    (∀ (cred : Credentials) (auth : AuthResponse) (connOk : Bool)
        (db : ReadExec),
      (read_user cred auth connOk db).response =
          .httpError ⟨404, "User not found"⟩ →
        ∃ raw, db = .dbError raw ∧ pyIn ("user not found") (pyLower raw)) := by
  constructor
  · intro cred auth p columns h
    have hr : run_endpoint cred auth true (read_user_body (.ok columns none)) =
        read_user_body (.ok columns none) := by
      unfold run_endpoint
      rw [h]
      rfl
    unfold read_user
    rw [hr]
    rfl
  · intro cred auth connOk db h
    unfold read_user run_endpoint at h
    cases hv : verify_credentials cred.username cred.password auth with
    | error e =>
      rw [hv] at h
      have he : e = ⟨404, "User not found"⟩ := by simpa using h
      rcases verify_error_cases _ _ _ _ hv with h1 | h1 | h1 <;>
        rw [he] at h1 <;> exact absurd h1 (by decide)
    | ok p =>
      rw [hv] at h
      cases connOk with
      | false => simp at h
      | true =>
        cases db with
        | ok cols row =>
          cases row with
          | some r => simp [read_user_body] at h
          | none => simp [read_user_body] at h
        | dbError raw =>
          by_cases hraw : pyIn ("user not found") (pyLower raw)
          · exact ⟨raw, rfl, hraw⟩
          · simp [read_user_body, hraw] at h

/-- Witness for claim C10: a missing row yields the TypeError outcome,
and a concrete user-not-found backend error satisfies the 404
characterisation. -/
theorem read_user_missing_row_type_error_witness :
    (read_user ⟨"grace@plymouth.ac.uk", "ISAD123!"⟩ authOK true
        (.ok [("User_ID")] none)).response = .typeError ∧
    ∃ raw, (ReadExec.dbError ("user not found") : ReadExec) = .dbError raw ∧
      pyIn ("user not found") (pyLower raw) :=
  ⟨read_user_missing_row_type_error.1 ⟨"grace@plymouth.ac.uk", "ISAD123!"⟩
      authOK ⟨"grace@plymouth.ac.uk", true⟩ [("User_ID")] rfl,
   read_user_missing_row_type_error.2 ⟨"grace@plymouth.ac.uk", "ISAD123!"⟩
      authOK true (.dbError ("user not found")) (by rfl)⟩

end ProfileService
